import Mathlib

/-!
Verification of the conversational calendar assistant
(`app.py`, `calenderinternal.py`).

The Python code is shallowly embedded: every definition below is a direct
translation of a function of the repository, with external collaborators
(the Google calendar/mail services, the `dateparser` library, the regex
field extractors whose internals no claim depends on) modelled as oracle
parameters gathered in a `Collab` record.  Python dictionaries holding the
conversation session data are modelled as association lists whose values
may be `none` (Python `None`); a missing optional email address is
modelled as the empty string, matching the falsy checks of the source.
-/

namespace EmailCal

/-! ## String utilities (Python `in`, `lower`, `strip`, `isdigit`) -/

/-- `listStartsWith l p` is true when `p` is a prefix of `l`. -/
def listStartsWith : List Char → List Char → Bool
  | _, [] => true
  | [], _ :: _ => false
  | a :: as, b :: bs => a == b && listStartsWith as bs

/-- `listHasSub l sub`: `sub` occurs contiguously inside `l`. -/
def listHasSub : List Char → List Char → Bool
  | [], sub => sub.isEmpty
  | a :: as, sub => listStartsWith (a :: as) sub || listHasSub as sub

/-- Python `sub in s` on strings. -/
def pyIn (sub s : String) : Bool := listHasSub s.toList sub.toList

/-- Python `s.lower()` (structural, so that concrete witnesses evaluate
inside the kernel). -/
def strLower (s : String) : String := String.mk (s.data.map Char.toLower)

/-- Python `s.strip()`: drop leading and trailing whitespace. -/
def strTrim (s : String) : String :=
  String.mk (((s.data.dropWhile Char.isWhitespace).reverse.dropWhile
    Char.isWhitespace).reverse)

/-- Python `int(s)` on a string of ASCII digits. -/
def digitsToNat (l : List Char) : Nat :=
  l.foldl (fun acc c => acc * 10 + (c.toNat - 48)) 0

/-- Python `str.isdigit()` (ASCII inputs): nonempty and all digits. -/
def pyIsDigit (s : String) : Bool := !s.data.isEmpty && s.data.all Char.isDigit

/-! ## Intent classifiers — `calenderinternal.py` lines 52–68, `app.py` -/

/-- From `calenderinternal.is_schedule_intent`. -/
def is_schedule_intent (message : String) : Bool :=
  ["schedule", "meet", "meeting", "appointment", "book", "plan"].any
    (fun k => pyIn k (strLower message))

/-- From `calenderinternal.is_update_intent`. -/
def is_update_intent (message : String) : Bool :=
  ["update", "change", "reschedule", "modify", "move",
   "shift", "postpone", "advance", "edit", "alter"].any
    (fun k => pyIn k (strLower message))

/-- From `calenderinternal.is_delete_intent`. -/
def is_delete_intent (message : String) : Bool :=
  ["delete", "cancel", "remove"].any (fun k => pyIn k (strLower message))

/-- From `app.is_email_processing_intent`: true iff one of the explicit
email keywords occurs in the lowercased, stripped message (the trailing
email-address regex branch of the source returns `False` either way). -/
def is_email_processing_intent (message : String) : Bool :=
  ["check emails", "show emails", "process emails", "email dashboard",
   "my emails", "recent emails", "inbox messages", "check my inbox",
   "show my inbox", "process my emails", "fetch emails", "get emails"].any
    (fun k => pyIn k (strTrim (strLower message)))

/-! ## Email validation — `app.validate_email` -/

/-- Characters of the local part of `app.validate_email`'s regex. -/
def isLocalChar (c : Char) : Bool :=
  c.isAlpha || c.isDigit || c == '.' || c == '_' || c == '%' || c == '+' || c == '-'

/-- Characters of the domain part of `app.validate_email`'s regex. -/
def isDomainChar (c : Char) : Bool :=
  c.isAlpha || c.isDigit || c == '.' || c == '-'

/-- Split a character list at the first occurrence of `c`. -/
def splitAtChar? (c : Char) : List Char → Option (List Char × List Char)
  | [] => none
  | a :: as =>
    if a == c then some ([], as)
    else
      match splitAtChar? c as with
      | some (l, r) => some (a :: l, r)
      | none => none

/-- All ways of splitting a list into a prefix and a suffix. -/
def splitsOf : List Char → List (List Char × List Char)
  | [] => [([], [])]
  | a :: as => ([], a :: as) :: (splitsOf as).map (fun p => (a :: p.1, p.2))

/-- The part after `@` matches `[a-zA-Z0-9.-]+\.[a-zA-Z]{2,}$`: some split
`m ++ ['.'] ++ t` with `m` nonempty of domain characters and `t` at least
two letters. -/
def domainOk (l : List Char) : Bool :=
  (splitsOf l).any fun p =>
    match p.2 with
    | '.' :: t => !p.1.isEmpty && p.1.all isDomainChar && decide (2 ≤ t.length) && t.all Char.isAlpha
    | _ => false

/-- From `app.validate_email`: full match against
`^[a-zA-Z0-9._%+-]+@[a-zA-Z0-9.-]+\.[a-zA-Z]{2,}$` (none of the character
classes contains `@`, so the split at the first `@` is exhaustive). -/
def validate_email (email : String) : Bool :=
  match splitAtChar? '@' email.toList with
  | none => false
  | some (l, r) => !l.isEmpty && l.all isLocalChar && domainOk r

/-! ## The `is_user_organizer` check — `app.py` lines 774–783 and 1532–1540 -/

/-- From `app.get_scheduled_meetings_from_calendar` and the deletable-events
listing of `app.chat_route`.  The Python source is

`organizer == user if user else False or creator == user if user else False`

(comparisons case-insensitive, `user` the truthiness test on the email),
which Python parses as

`organizer == user if user else ((False or creator == user) if user else False)`.

`user_email = None` is modelled as the empty string. -/
def is_user_organizer (user_email organizer_email creator_email : String) : Bool :=
  if user_email ≠ "" then strLower organizer_email == strLower user_email
  else
    if user_email ≠ "" then false || (strLower creator_email == strLower user_email)
    else false

/-- Modelled from the spec: design note in section 9 — the evidently
intended "user is organizer OR user is creator" semantics of the
`is_user_organizer` check, which the source does not implement. -/
def is_user_organizer_spec (user_email organizer_email creator_email : String) : Bool :=
  strLower organizer_email == strLower user_email
    || strLower creator_email == strLower user_email

/-! ## Dates — results of `dateparser.parse(...).date()` and `strftime` -/

/-- A Python `datetime.date`. -/
structure PyDate where
  year : Nat
  month : Nat
  day : Nat
deriving DecidableEq, Repr

/-- Python comparison of `datetime.date` values: lexicographic on
(year, month, day). -/
def dateLe (a b : PyDate) : Bool :=
  a.year < b.year
    || (a.year == b.year
        && (a.month < b.month || (a.month == b.month && a.day ≤ b.day)))

/-- Zero-pad to two digits (`strftime` `%m`, `%d`). -/
def pad2 (n : Nat) : String :=
  if n < 10 then "0" ++ toString n else toString n

/-- Zero-pad to four digits (`strftime` `%Y`). -/
def pad4 (n : Nat) : String :=
  if n < 10 then "000" ++ toString n
  else if n < 100 then "00" ++ toString n
  else if n < 1000 then "0" ++ toString n
  else toString n

/-- `parsed.strftime('%Y-%m-%d')`. -/
def strftime_Ymd (d : PyDate) : String :=
  pad4 d.year ++ "-" ++ pad2 d.month ++ "-" ++ pad2 d.day

/-! ## Python dictionaries holding session field data

The session data dict maps field-name strings to values that may be `None`
(the update flow stores `extracted.get(...)` results directly), so values
are `Option String`. -/

/-- Session field dictionary. -/
abbrev PyDict := List (String × Option String)

/-- Raw key lookup: `some v` when the key is present with stored value `v`
(which itself may be Python `None` = `none`). -/
def dictGet? (d : PyDict) (k : String) : Option (Option String) :=
  (d.find? (fun p => p.1 == k)).map (fun p => p.2)

/-- Python `d.get(k)`: `None` when the key is absent or stores `None`. -/
def pyGet (d : PyDict) (k : String) : Option String :=
  match dictGet? d k with
  | some v => v
  | none => none

/-- Python `d[k]` where the caller has ensured the key holds a string;
a missing key or a `None` value is rendered as `""` (unreachable on the
paths that use it, which all guard with `truthyField`). -/
def pyIndexD (d : PyDict) (k : String) : String :=
  match dictGet? d k with
  | some (some v) => v
  | _ => ""

/-- Python `d[k]` as a fallible access: a missing key raises
`KeyError(k)`, whose `str()` is the quoted key. -/
def dictIndex (d : PyDict) (k : String) : Except String String :=
  match dictGet? d k with
  | some (some v) => Except.ok v
  | some none => Except.ok "None"
  | none => Except.error ("'" ++ k ++ "'")

/-- Python `d[k] = v` (replace or append). -/
def dictSet (d : PyDict) (k : String) (v : Option String) : PyDict :=
  if (d.find? (fun p => p.1 == k)).isSome then
    d.map (fun p => if p.1 == k then (k, v) else p)
  else d ++ [(k, v)]

/-- The check `field in data and data[field]` (negation of the source's
`field not in current_data or not current_data[field]`). -/
def truthyField (d : PyDict) (k : String) : Bool :=
  match pyGet d k with
  | some v => !v.data.isEmpty
  | none => false

/-! ## Required fields and prompts — `app.py` -/

/-- `app.REQUIRED_FIELDS`. -/
def REQUIRED_FIELDS : List String :=
  ["participant_email", "event_name", "event_date", "event_time"]

/-- `app.UPDATE_REQUIRED_FIELDS`. -/
def UPDATE_REQUIRED_FIELDS : List String :=
  ["event_name", "new_date", "new_time"]

/-- The `questions` table of `app.get_missing_field_prompt`. -/
def scheduleQuestion : String → String
  | "participant_email" => "What is the participant's email address?"
  | "event_name" => "What should be the event name?"
  | "event_date" => "When is the meeting? (e.g., today, tomorrow, August 15, or April 8 2025)"
  | "event_time" => "What time is the meeting? (e.g., 10:00 AM to 11:00 AM)"
  | _ => ""

/-- From `app.get_missing_field_prompt`: the first required schedule field
that is absent or falsy, with its prompt. -/
def get_missing_field_prompt (d : PyDict) : Option (String × String) :=
  match REQUIRED_FIELDS.filter (fun f => !truthyField d f) with
  | [] => none
  | f :: _ =>
    some (f, "Please specify the missing information: " ++ scheduleQuestion f)

/-- The `questions` table of `app.get_missing_update_field_prompt`. -/
def updateQuestion : String → String
  | "event_name" => "What is the event name you want to update?"
  | "new_date" => "What is the new date? (e.g., today, tomorrow, August 15, or April 8 2025)"
  | "new_time" => "What is the new time? (e.g., 10:00 AM to 11:00 AM)"
  | _ => ""

/-- From `app.get_missing_update_field_prompt`. -/
def get_missing_update_field_prompt (d : PyDict) : Option (String × String) :=
  match UPDATE_REQUIRED_FIELDS.filter (fun f => !truthyField d f) with
  | [] => none
  | f :: _ => some (f, "Please specify: " ++ updateQuestion f)

/-! ## Calendar events, side effects, collaborator oracles -/

/-- A timezone-aware datetime as produced by
`calenderinternal.parse_datetime` (`pytz.timezone('Asia/Kolkata').localize`):
minutes on a linear time line plus the timezone tag. -/
structure ISTTime where
  minutes : Int
  tz : String
deriving DecidableEq, Repr

/-- A Google calendar event as the source reads it: `id`, `summary`,
organizer/creator emails, attendee emails and the raw start string.
A missing `summary`/`email` field is modelled as `""` (the source reads
them with `.get(..., '')`-style falsy checks). -/
structure GEvent where
  id : String
  summary : String
  organizer : String
  creator : String
  attendees : List String
  startStr : String
deriving DecidableEq, Repr, Inhabited

/-- Externally visible side effects issued by the executors: email sends
and calendar API mutation calls. -/
inductive Effect
  | conflictEmail (recipient event : String)
  | cancelEmail (recipient event : String)
  | rescheduleEmail (recipient event : String)
  | createCall (summary participant : String)
  | trackMeeting (eventId : String)
  | updateCall (eventId : String)
  | deleteCall (eventId : String)
deriving DecidableEq, Repr

/-- Results of all external collaborator calls the embedded code makes,
plus process-local state (`datetime.now().date()`, the authenticated
user's email, service availability).  Fallible API calls return
`Except String Unit` carrying `str(error)` on failure, matched by the
source's `"404" in error_msg`-style tests. -/
structure Collab where
  today : PyDate
  /-- `dateparser.parse(s, settings=PREFER_DATES_FROM future)` followed by
  `.date()`; `none` when the parser returns `None`. -/
  dparse : String → Option PyDate
  /-- `calenderinternal.extract_event_details` (regex extractor). -/
  extract_event_details : String → PyDict
  /-- `calenderinternal.extract_update_details` (regex extractor). -/
  extract_update_details : String → PyDict
  /-- `calenderinternal.extract_delete_details` (regex extractor). -/
  extract_delete_details : String → PyDict
  /-- `calenderinternal.parse_datetime` as used by the executors: the
  resolved (start, end) instants for a (date string, time string) pair. -/
  parseDT : String → String → ISTTime × ISTTime
  /-- `calenderinternal.check_participant_calendar_conflicts`. -/
  checkConflict : String → ISTTime → ISTTime → Bool
  /-- `create_event_with_meeting_link`: `some (event id, meeting link)` on
  success, `none` on failure. -/
  createEvent : String → ISTTime → ISTTime → String → Option (String × String)
  /-- `calenderinternal.get_event_by_name` (exact, substring, then
  word-overlap search over the calendar). -/
  getEventByName : String → Option GEvent
  /-- The event list the calendar API returns for the ±30-day listing
  queries (`suggest_similar_events`, the deletable-events listing). -/
  listRecentEvents : List GEvent
  /-- `events().update(...).execute()` by event id. -/
  updateCall : String → Except String Unit
  /-- `events().delete(...).execute()` by event id. -/
  deleteCall : String → Except String Unit
  /-- The verification `events().get` after a delete: `ok status` when the
  event is still readable, `error` when fetching raises. -/
  getAfterDelete : String → Except String String
  /-- Whether an email send to a given address reports success. -/
  sendOk : String → Bool
  servicesOk : Bool
  /-- `get_authenticated_user_email()` (never `None` in the source, which
  falls back to `'me'`; `""` models an unknown email). -/
  userEmail : String
  /-- `get_scheduled_meetings_count()`. -/
  meetingCount : Nat
  /-- The reply produced by the email-processing branch of `chat_route`. -/
  emailReply : String
  /-- The free-form AI/fallback reply of `chat_route`. -/
  freeformReply : String → String

/-! ## Suggestions — `calenderinternal.suggest_similar_events` -/

/-- Python `s.lower().split()`: whitespace-separated, empty words dropped. -/
def wordSplitAux : List Char → List Char → List (List Char)
  | [], acc => if acc.isEmpty then [] else [acc.reverse]
  | c :: cs, acc =>
    if c.isWhitespace then
      if acc.isEmpty then wordSplitAux cs [] else acc.reverse :: wordSplitAux cs []
    else wordSplitAux cs (c :: acc)

def wordsOf (s : String) : List String :=
  (wordSplitAux (strLower s).data []).map String.mk

/-- `len(set(a.lower().split()) & set(b.lower().split()))`. -/
def word_overlap (a b : String) : Nat :=
  ((wordsOf a).dedup).countP (fun w => (wordsOf b).contains w)

/-- Stable insertion (descending by score): a new element goes after every
element whose score is at least as large, matching Python's stable
`list.sort(key=..., reverse=True)`. -/
def insertByScore (a : GEvent × Nat) : List (GEvent × Nat) → List (GEvent × Nat)
  | [] => [a]
  | b :: bs => if b.2 < a.2 then a :: b :: bs else b :: insertByScore a bs

/-- Stable descending sort by overlap score. -/
def sortByScore (l : List (GEvent × Nat)) : List (GEvent × Nat) :=
  l.foldl (fun acc a => insertByScore a acc) []

/-- From `calenderinternal.suggest_similar_events`: events of the listing
whose summary shares at least one word with the requested name, as Python
dicts with keys `name`, `date` and `overlap_score` (the integer score is
stored via its decimal string; no path reads it back), sorted by score
descending, first three. -/
def suggest_similar_events (events : List GEvent) (event_name : String) : List PyDict :=
  let cands := events.filterMap (fun e =>
    if e.summary ≠ "" then
      let overlap := word_overlap event_name e.summary
      if overlap > 0 then some (e, overlap) else none
    else none)
  ((sortByScore cands).take 3).map (fun p =>
    [("name", some p.1.summary), ("date", some p.1.startStr),
     ("overlap_score", some (toString p.2))])

/-! ## Executors — `app.delete_event_with_sync`, `app.update_event_with_sync`,
`calenderinternal.delete_event` -/

/-- Result of an executor: the `(success, message)` pair returned to
`chat_route`, plus the side effects issued on the way. -/
structure ExecResult where
  success : Bool
  message : String
  effects : List Effect
deriving DecidableEq, Repr

/-- Python `', '.join(l)`. -/
def joinComma : List String → String
  | [] => ""
  | [a] => a
  | a :: rest => a ++ ", " ++ joinComma rest

/-- The attendees other than the authenticated user, as iterated by the
executors (`attendee.get('email')` truthy and case-insensitively different
from the user's email). -/
def otherAttendees (user : String) (attendees : List String) : List String :=
  attendees.filter (fun a => !a.data.isEmpty && strLower a ≠ strLower user)

/-- From `calenderinternal.delete_event`: find the event, email the other
attendees, then delete; a `404`-class failure of the delete call is
treated as success ("the goal is achieved"), any other failure as failure.
Returns the boolean result and the side effects. -/
def delete_event (C : Collab) (event_name : String) : Bool × List Effect :=
  match C.getEventByName event_name with
  | none => (false, [])
  | some ev =>
    let title := if ev.summary = "" then "Untitled Event" else ev.summary
    let mails := (otherAttendees C.userEmail ev.attendees).map
      (fun a => Effect.cancelEmail a title)
    match C.deleteCall ev.id with
    | Except.ok _ => (true, mails ++ [Effect.deleteCall ev.id])
    | Except.error e =>
      if pyIn "404" e then (true, mails ++ [Effect.deleteCall ev.id])
      else (false, mails ++ [Effect.deleteCall ev.id])

/-- From `app.delete_event_with_sync`.  Notable: on the not-found path the
suggestion message is built by reading key `'summary'` of the suggestion
dicts (which carry key `'name'`), so a nonempty suggestion list raises
`KeyError('summary')`, caught by the outer handler; and a `404`-class
failure of the delete call returns `(False, ... already deleted ...)`. -/
def delete_event_with_sync (C : Collab) (event_name : String) : ExecResult :=
  match C.getEventByName event_name with
  | none =>
    let suggestions := suggest_similar_events C.listRecentEvents event_name
    if suggestions.isEmpty then
      ⟨false, "Event '" ++ event_name ++ "' not found", []⟩
    else
      match suggestions.mapM (fun s => (dictIndex s "summary").toOption) with
      | some names =>
        ⟨false, "Event '" ++ event_name ++ "' not found. Similar events found: "
          ++ joinComma (names.take 3), []⟩
      | none =>
        ⟨false, "Unexpected error during deletion: 'summary'", []⟩
  | some ev =>
    let summary := if ev.summary = "" then event_name else ev.summary
    let recipients :=
      if !ev.attendees.isEmpty && C.userEmail ≠ "" then
        otherAttendees C.userEmail ev.attendees
      else []
    let mails := recipients.map (fun a => Effect.cancelEmail a summary)
    let notificationSent := recipients.any (fun a => C.sendOk a)
    let effs := mails ++ [Effect.deleteCall ev.id]
    match C.deleteCall ev.id with
    | Except.error e =>
      if pyIn "404" e then
        ⟨false, "Event '" ++ event_name ++ "' was already deleted or not found", effs⟩
      else if pyIn "403" e then
        ⟨false, "Permission denied. You may not have rights to delete this event", effs⟩
      else if pyIn "401" e then
        ⟨false, "Authentication error. Please re-authenticate with Google Calendar", effs⟩
      else ⟨false, "Failed to delete event: " ++ e, effs⟩
    | Except.ok _ =>
      match C.getAfterDelete ev.id with
      | Except.ok status =>
        if status ≠ "cancelled" then
          ⟨false, "Event deletion may not have completed properly", effs⟩
        else
          ⟨true, "Event '" ++ summary ++ "' deleted successfully"
            ++ (if notificationSent then " and cancellation notifications sent to attendees" else ""),
            effs⟩
      | Except.error _ =>
        ⟨true, "Event '" ++ summary ++ "' deleted successfully"
          ++ (if notificationSent then " and cancellation notifications sent to attendees" else ""),
          effs⟩

/-- From `app.update_event_with_sync`: find the event; on miss report
not-found (with the same `'summary'`-keyed suggestion lookup as the delete
path); on hit check every other attendee for conflicts at the new time,
notifying each conflicted attendee; abort without any update call if a
conflict was detected; otherwise email reschedule notices and issue the
update call. -/
def update_event_with_sync (C : Collab) (event_name new_date new_time : String) :
    ExecResult :=
  match C.getEventByName event_name with
  | none =>
    let suggestions := suggest_similar_events C.listRecentEvents event_name
    if suggestions.isEmpty then
      ⟨false, "Event '" ++ event_name ++ "' not found", []⟩
    else
      match suggestions.mapM (fun s => (dictIndex s "summary").toOption) with
      | some names =>
        ⟨false, "Event '" ++ event_name ++ "' not found. Did you mean: "
          ++ joinComma (names.take 3) ++ "?", []⟩
      | none =>
        ⟨false, "Unexpected error during update: 'summary'", []⟩
  | some ev =>
    let se := C.parseDT new_date new_time
    let summary := if ev.summary = "" then event_name else ev.summary
    let checked :=
      if !ev.attendees.isEmpty && C.userEmail ≠ "" then
        otherAttendees C.userEmail ev.attendees
      else []
    let conflicted := checked.filter (fun a => C.checkConflict a se.1 se.2)
    let conflictMails := conflicted.map (fun a => Effect.conflictEmail a summary)
    if !conflicted.isEmpty then
      ⟨false, "Scheduling conflicts detected. Participants have been notified.",
        conflictMails⟩
    else
      let notices := checked.map (fun a => Effect.rescheduleEmail a summary)
      let notificationSent := checked.any (fun a => C.sendOk a)
      let effs := notices ++ [Effect.updateCall ev.id]
      let res : Bool × String :=
        match C.updateCall ev.id with
        | Except.ok _ =>
          (true, "Event '" ++ summary ++ "' updated successfully to "
            ++ new_date ++ " at " ++ new_time
            ++ (if notificationSent then " and participants have been notified" else ""))
        | Except.error e =>
          if pyIn "404" e then
            (false, "Event '" ++ event_name ++ "' no longer exists")
          else if pyIn "403" e then
            (false, "Permission denied. You may not have rights to update this event")
          else if pyIn "401" e then
            (false, "Authentication error. Please re-authenticate with Google Calendar")
          else (false, "Failed to update event: " ++ e)
      ⟨res.1, res.2, effs⟩

/-! ## Conversation session and the chat turn — `app.chat_route`

`chat_turn` embeds the dialogue state machine of `chat_route`: the message
has already been stripped, checked nonempty and spelling-corrected.  The
session fields not touched by the state machine (`processed_emails`,
`meeting_requests`, `scheduled_meetings`) are outside the model; the email
branch and the free-form branch leave the modelled fields unchanged. -/

/-- `session['intent']`. -/
inductive Intent
  | schedule
  | update
  | delete
deriving DecidableEq, Repr

/-- The modelled `flask` session: intent, field record, awaited field and
the transient delete state. -/
structure SessionSt where
  intent : Option Intent
  data : PyDict
  waiting_for : Option String
  /-- `session['deletable_events']` (names with display dates); the key is
  present in the Python session iff the list here is nonempty. -/
  deletable_events : List GEvent
  update_text : Option String
  delete_text : Option String
deriving DecidableEq, Repr

/-- `session.clear()`. -/
def emptySession : SessionSt :=
  { intent := none, data := [], waiting_for := none,
    deletable_events := [], update_text := none, delete_text := none }

/-- How the turn ended: handled by the email-processing branch, handled as
free-form conversation, a prompt/re-prompt for a field (the conversation
continues), or a terminal outcome (the session was cleared). -/
inductive Outcome
  | emailFlow
  | freeform
  | prompted (field : String)
  | terminal
deriving DecidableEq, Repr

/-- Result of one conversation turn: the reply, the updated session, the
side effects issued, the intent under which the turn was processed
(`session['intent']` at processing time) and the outcome kind. -/
structure TurnResult where
  reply : String
  sess : SessionSt
  effects : List Effect
  usedIntent : Option Intent
  outcome : Outcome
deriving DecidableEq, Repr

/-- From `app.process_update_field_input`: validate one awaited update
field; returns `(success, message, data)` where `data` is the (possibly
mutated-in-place) field record. -/
def process_update_field_input (C : Collab) (field input : String) (d : PyDict) :
    Bool × String × PyDict :=
  let input := strTrim input
  if field = "event_name" && input ≠ "" then
    (true, "✅ Event name updated!", dictSet d field (some input))
  else if field = "new_date" then
    match C.dparse input with
    | some dd =>
      if dateLe C.today dd then
        (true, "✅ New date saved!", dictSet d field (some (strftime_Ymd dd)))
      else
        (false, "⚠️ Please enter a valid future date (e.g., 'tomorrow', 'April 15', 'next Monday').", d)
    | none =>
      (false, "⚠️ Please enter a valid future date (e.g., 'tomorrow', 'April 15', 'next Monday').", d)
  else if field = "new_time" then
    match pyGet (C.extract_event_details input) "event_time" with
    | some t => (true, "✅ New time saved!", dictSet d field (some t))
    | none =>
      (false, "⚠️ Please enter a valid time range (e.g., '2 PM to 3 PM', '10:00 AM - 11:00 AM').", d)
  else (false, "⚠️ Invalid input for this field.", d)

/-- The conflict reply of the schedule executor. -/
def scheduleConflictMsg (participant : String) : String :=
  "⚠️ Participant '" ++ participant
    ++ "' has a scheduling conflict at the requested time. They have been notified about the conflict."

/-- The success reply of the schedule executor. -/
def scheduleSuccessMsg (name participant link : String) (count : Nat) : String :=
  "✅ Event '" ++ name ++ "' scheduled successfully with " ++ participant
    ++ "!\n\n🔗 Meeting Link: " ++ link
    ++ "\n\n📧 A calendar invitation has been sent with meeting details.\n\n📊 Meeting count updated in email dashboard: "
    ++ toString count ++ " total scheduled meetings."

/-- The awaited-field step of the schedule flow (`chat_route`, lines
1340–1361): either an early rejection reply (`inl`, session unchanged) or
the field record to continue with (`inr`); on fall-through (invalid email,
empty event name) the record continues unchanged, exactly as the source's
`if/elif` chain falls through to `session.pop('waiting_for')`. -/
def scheduleAwait (C : Collab) (s : SessionSt) (input : String) :
    TurnResult ⊕ PyDict :=
  match s.waiting_for with
  | none => Sum.inr s.data
  | some field =>
    if field = "participant_email" && validate_email input then
      Sum.inr (dictSet s.data field (some input))
    else if field = "event_name" && input ≠ "" then
      Sum.inr (dictSet s.data field (some input))
    else if field = "event_date" then
      match C.dparse input with
      | some d =>
        if dateLe C.today d then
          Sum.inr (dictSet s.data field (some (strftime_Ymd d)))
        else
          Sum.inl ⟨"⚠️ Please enter a valid future date.", s, [],
            some Intent.schedule, Outcome.prompted field⟩
      | none =>
        Sum.inl ⟨"⚠️ Please enter a valid future date.", s, [],
          some Intent.schedule, Outcome.prompted field⟩
    else if field = "event_time" then
      match pyGet (C.extract_event_details input) "event_time" with
      | some t => Sum.inr (dictSet s.data field (some t))
      | none =>
        Sum.inl ⟨"⚠️ Please enter a valid time (e.g., '2 PM', '10 AM to 11 AM').", s, [],
          some Intent.schedule, Outcome.prompted field⟩
    else Sum.inr s.data

/-- The schedule executor (`chat_route`, lines 1374–1435): service and
email checks, conflict check, creation, then `session.clear()` on every
path. -/
def scheduleExec (C : Collab) (s : SessionSt) : TurnResult :=
  let details := s.data
  if !C.servicesOk then
    ⟨"❌ Calendar or Gmail service not available. Please check authentication.",
      emptySession, [], some Intent.schedule, Outcome.terminal⟩
  else if !validate_email (pyIndexD details "participant_email") then
    ⟨"❌ Invalid participant email address.", emptySession, [],
      some Intent.schedule, Outcome.terminal⟩
  else
    let participant := pyIndexD details "participant_email"
    let name := pyIndexD details "event_name"
    let se := C.parseDT (pyIndexD details "event_date") (pyIndexD details "event_time")
    if C.checkConflict participant se.1 se.2 then
      ⟨scheduleConflictMsg participant,
        emptySession, [Effect.conflictEmail participant name],
        some Intent.schedule, Outcome.terminal⟩
    else
      match C.createEvent name se.1 se.2 participant with
      | some (eid, link) =>
        ⟨scheduleSuccessMsg name participant link C.meetingCount,
          emptySession, [Effect.createCall name participant, Effect.trackMeeting eid],
          some Intent.schedule, Outcome.terminal⟩
      | none =>
        ⟨"❌ Failed to create calendar event. Please check your calendar permissions.",
          emptySession, [Effect.createCall name participant],
          some Intent.schedule, Outcome.terminal⟩

/-- The schedule flow of `chat_route`. -/
def scheduleFlow (C : Collab) (s : SessionSt) (input : String) : TurnResult :=
  match scheduleAwait C s input with
  | Sum.inl r => r
  | Sum.inr data1 =>
    match get_missing_field_prompt data1 with
    | some fp =>
      ⟨fp.2, { s with data := data1, waiting_for := some fp.1 }, [],
        some Intent.schedule, Outcome.prompted fp.1⟩
    | none =>
      scheduleExec C { s with data := data1, waiting_for := none }

/-- The update flow of `chat_route` (lines 1437–1492). -/
def updateFlow (C : Collab) (s : SessionSt) (input : String) : TurnResult :=
  let step :=
    match s.waiting_for with
    | some field =>
      let r := process_update_field_input C field input s.data
      if r.1 then
        Sum.inr { s with waiting_for := none, data := r.2.2 }
      else
        Sum.inl (⟨r.2.1, { s with data := r.2.2 }, [],
          some Intent.update, Outcome.prompted field⟩ : TurnResult)
    | none => Sum.inr s
  match step with
  | Sum.inl r => r
  | Sum.inr s1 =>
    match get_missing_update_field_prompt s1.data with
    | some fp =>
      ⟨fp.2, { s1 with waiting_for := some fp.1 }, [],
        some Intent.update, Outcome.prompted fp.1⟩
    | none =>
      if !C.servicesOk then
        ⟨"❌ Services not available. Please check authentication.",
          emptySession, [], some Intent.update, Outcome.terminal⟩
      else
        let res := update_event_with_sync C (pyIndexD s1.data "event_name")
          (pyIndexD s1.data "new_date") (pyIndexD s1.data "new_time")
        if res.success then
          ⟨res.message ++ "\n\n📊 Calendar synchronized. Total scheduled meetings: "
            ++ toString C.meetingCount,
            emptySession, res.effects, some Intent.update, Outcome.terminal⟩
        else
          ⟨"❌ " ++ res.message, emptySession, res.effects,
            some Intent.update, Outcome.terminal⟩

/-- The deletable-events listing message of `chat_route` (display-date
reformatting elided: the raw start string stands in for the formatted
date). -/
def deletableListMsg (deletable : List GEvent) : String :=
  "📅 **Your Deletable Events:**\n\n"
    ++ String.join (((deletable.take 8).enum).map (fun p =>
        toString (p.1 + 1) ++ ". **" ++ p.2.summary ++ "**\n   📅 " ++ p.2.startStr ++ "\n\n"))
    ++ "💡 Events with 👥 have attendees who will be notified.\nEnter the **event name** or **number** to delete:"

/-- The delete flow of `chat_route` (lines 1494–1638): awaited event name,
deletable-events listing (filtered by `is_user_organizer`), 1-based
numeric selection, then the delete executor with `session.clear()`. -/
def deleteFlow (C : Collab) (s : SessionSt) (input : String) : TurnResult :=
  let step :=
    if s.waiting_for = some "event_name" then
      let en := strTrim input
      if en ≠ "" then
        Sum.inr { s with data := dictSet s.data "event_name" (some en),
                         waiting_for := none }
      else
        Sum.inl (⟨"⚠️ Please enter a valid event name.", s, [],
          some Intent.delete, Outcome.prompted "event_name"⟩ : TurnResult)
    else Sum.inr s
  match step with
  | Sum.inl r => r
  | Sum.inr s1 =>
    if !truthyField s1.data "event_name" then
      if C.servicesOk then
        let deletable := C.listRecentEvents.filter (fun e =>
          is_user_organizer C.userEmail e.organizer e.creator && e.summary ≠ "")
        if !deletable.isEmpty then
          ⟨deletableListMsg deletable,
            { s1 with waiting_for := some "event_name", deletable_events := deletable },
            [], some Intent.delete, Outcome.prompted "event_name"⟩
        else
          ⟨"📅 No deletable events found in your calendar (you must be the organizer to delete events).",
            emptySession, [], some Intent.delete, Outcome.terminal⟩
      else
        ⟨"🗑️ What is the name of the event you want to delete?",
          { s1 with waiting_for := some "event_name" }, [],
          some Intent.delete, Outcome.prompted "event_name"⟩
    else
      let sel :=
        if pyIsDigit input && !s1.deletable_events.isEmpty then
          let idx : Int := (digitsToNat input.data : Int) - 1
          if 0 ≤ idx && idx < s1.deletable_events.length then
            Sum.inr { s1 with
              data := dictSet s1.data "event_name"
                (some ((s1.deletable_events.getD idx.toNat default).summary)),
              deletable_events := [] }
          else
            Sum.inl (⟨"⚠️ Invalid event number. Please try again.", s1, [],
              some Intent.delete, Outcome.prompted "event_name"⟩ : TurnResult)
        else Sum.inr s1
      match sel with
      | Sum.inl r => r
      | Sum.inr s2 =>
        if !C.servicesOk then
          ⟨"❌ Services not available. Please check authentication.",
            emptySession, [], some Intent.delete, Outcome.terminal⟩
        else
          let res := delete_event_with_sync C (pyIndexD s2.data "event_name")
          if res.success then
            ⟨res.message ++ "\n\n📊 Calendar synchronized. Total scheduled meetings: "
              ++ toString C.meetingCount,
              emptySession, res.effects, some Intent.delete, Outcome.terminal⟩
          else
            ⟨"❌ " ++ res.message, emptySession, res.effects,
              some Intent.delete, Outcome.terminal⟩

/-- One turn of `app.chat_route`: the email-processing branch, initial
intent detection in priority order with extractor seeding, then the flow
of the active intent; with no intent and no matching classifier the
message is delegated to the free-form AI/fallback replies (session
unchanged). -/
def chat_turn (C : Collab) (s : SessionSt) (input : String) : TurnResult :=
  if is_email_processing_intent input && s.intent = none then
    ⟨C.emailReply, s, [], none, Outcome.emailFlow⟩
  else
    match s.intent with
    | some Intent.schedule => scheduleFlow C s input
    | some Intent.update => updateFlow C s input
    | some Intent.delete => deleteFlow C s input
    | none =>
      if is_schedule_intent input then
        scheduleFlow C
          { s with intent := some Intent.schedule,
                   data := C.extract_event_details input } input
      else if is_update_intent input then
        let ex := C.extract_update_details input
        updateFlow C
          { s with intent := some Intent.update,
                   update_text := some input,
                   data := [("event_name", pyGet ex "event_name"),
                            ("new_date", pyGet ex "event_date"),
                            ("new_time", pyGet ex "event_time")] } input
      else if is_delete_intent input then
        deleteFlow C
          { s with intent := some Intent.delete,
                   delete_text := some input,
                   data := C.extract_delete_details input } input
      else
        ⟨C.freeformReply input, s, [], none, Outcome.freeform⟩

/-! ## `calenderinternal.parse_datetime` -/

/-- From `calenderinternal.parse_datetime`, embedded over the results of
its `dateparser` collaborator calls.  Parameters:
`today` — the day number of `datetime.now()`;
`dateRes` — the day number produced by parsing `date_str` with
future-preferring settings (`none` when the parser returns `None`);
`p1` — the wall-clock minutes obtained by parsing the first part of the
time string (after natural-word substitution and splitting on
`to`/`-`/`till`) prefixed with the resolved date (`none` = unparseable);
`rest` — the same for the remaining parts.
The source formats `start + 1 hour` with `strftime('%I:%M %p')` — which
discards the date — and re-parses it prefixed with the same date, so the
defaulted end lands on the resolved date with clock `(c + 60) % 1440`;
this collaborator round-trip is built into the single-part branch.
Both results are localized to `Asia/Kolkata`, and the wrapping
`try/except` returns tomorrow 10:00–11:00 on any failure, so the function
is total. -/
def parse_datetime (today : Int) (dateRes : Option Int) (p1 : Option Nat)
    (rest : List (Option Nat)) : ISTTime × ISTTime :=
  let day := dateRes.getD (today + 1)
  match rest with
  | p2 :: _ =>
    let start : Int := match p1 with | some c => day * 1440 + c | none => day * 1440 + 600
    let stop : Int := match p2 with | some c => day * 1440 + c | none => start + 60
    (⟨start, "Asia/Kolkata"⟩, ⟨stop, "Asia/Kolkata"⟩)
  | [] =>
    let e : Option Nat := match p1 with
      | some c => some ((c + 60) % 1440)
      | none => none
    let start : Int := match p1 with | some c => day * 1440 + c | none => day * 1440 + 600
    let stop : Int := match e with | some c => day * 1440 + c | none => start + 60
    (⟨start, "Asia/Kolkata"⟩, ⟨stop, "Asia/Kolkata"⟩)

/-! ## Statement helpers -/

/-- The message the source re-emits when the validator rejects the value
supplied for awaited field `f` under intent `i`. -/
def repromptMsg (i : Intent) (f : String) : String :=
  match i, f with
  | Intent.schedule, "participant_email" =>
    "Please specify the missing information: What is the participant's email address?"
  | Intent.schedule, "event_date" => "⚠️ Please enter a valid future date."
  | Intent.schedule, "event_time" =>
    "⚠️ Please enter a valid time (e.g., '2 PM', '10 AM to 11 AM')."
  | Intent.update, "new_date" =>
    "⚠️ Please enter a valid future date (e.g., 'tomorrow', 'April 15', 'next Monday')."
  | Intent.update, "new_time" =>
    "⚠️ Please enter a valid time range (e.g., '2 PM to 3 PM', '10:00 AM - 11:00 AM')."
  | _, _ => ""

/-- The field validator of the matching flow rejects `input` for awaited
field `f` under intent `i`: an invalid email, a past or unparseable date,
or an unparseable time — the three recoverable input errors of the
claim. -/
def rejectsAwaited (C : Collab) (i : Intent) (f input : String) : Prop :=
  (i = Intent.schedule ∧ f = "participant_email" ∧ validate_email input = false) ∨
  (i = Intent.schedule ∧ f = "event_date" ∧
    ∀ d, C.dparse input = some d → dateLe C.today d = false) ∨
  (i = Intent.schedule ∧ f = "event_time" ∧
    pyGet (C.extract_event_details input) "event_time" = none) ∨
  (i = Intent.update ∧ f = "new_date" ∧
    ∀ d, C.dparse (strTrim input) = some d → dateLe C.today d = false) ∨
  (i = Intent.update ∧ f = "new_time" ∧
    pyGet (C.extract_event_details (strTrim input)) "event_time" = none)

/-! ## Concrete fixtures for witnesses and counterexamples -/

/-- A `dateparser` oracle behaving as the library does on the relative
words, anchored at 2025-10-12. -/
def dparse0 : String → Option PyDate := fun s =>
  if s = "today" then some ⟨2025, 10, 12⟩
  else if s = "tomorrow" then some ⟨2025, 10, 13⟩
  else if s = "yesterday" then some ⟨2025, 10, 11⟩
  else none

/-- A baseline collaborator world: services available, no conflicts,
creation succeeds, an empty calendar. -/
def C0 : Collab :=
  { today := ⟨2025, 10, 12⟩
    dparse := dparse0
    extract_event_details := fun _ => []
    extract_update_details := fun _ => []
    extract_delete_details := fun _ => []
    parseDT := fun _ _ => (⟨600, "Asia/Kolkata"⟩, ⟨660, "Asia/Kolkata"⟩)
    checkConflict := fun _ _ _ => false
    createEvent := fun _ _ _ _ => some ("ev1", "https://meet.example/abc")
    getEventByName := fun _ => none
    listRecentEvents := []
    updateCall := fun _ => Except.ok ()
    deleteCall := fun _ => Except.ok ()
    getAfterDelete := fun _ => Except.error "404"
    sendOk := fun _ => true
    servicesOk := true
    userEmail := "me@x.com"
    meetingCount := 0
    emailReply := "email summary"
    freeformReply := fun _ => "fallback" }

/-- A calendar event used by the delete/update fixtures. -/
def evStandup : GEvent :=
  { id := "id3", summary := "Standup", organizer := "me@x.com",
    creator := "me@x.com", attendees := ["a@x.com", "me@x.com"],
    startStr := "2025-10-13T10:00:00" }

/-- World where the event is found but the delete call fails with a
404-class error (the resource is already gone). -/
def C3c : Collab :=
  { C0 with
    getEventByName := fun n => if n = "Standup" then some evStandup else none
    deleteCall := fun _ => Except.error "404 Not Found" }

/-- Session holding a complete delete record for `Standup`. -/
def sDel : SessionSt :=
  { intent := some Intent.delete, data := [("event_name", some "Standup")],
    waiting_for := none, deletable_events := [],
    update_text := none, delete_text := some "delete the Standup meeting" }

/-- World for the suggestion paths: the requested name is not resolvable
but the calendar holds an event sharing a word with it. -/
def C8c : Collab :=
  { C0 with
    listRecentEvents :=
      [{ id := "e1", summary := "Team Standup", organizer := "me@x.com",
         creator := "me@x.com", attendees := [], startStr := "2025-10-20" }] }

/-- Session awaiting the update field `new_date`. -/
def sUpdAwait : SessionSt :=
  { intent := some Intent.update,
    data := [("event_name", some "Standup"), ("new_time", some "2 PM to 3 PM")],
    waiting_for := some "new_date", deletable_events := [],
    update_text := some "update the Standup meeting", delete_text := none }

/-- Session holding a complete schedule record. -/
def sSched : SessionSt :=
  { intent := some Intent.schedule,
    data := [("participant_email", some "alice@example.com"),
             ("event_name", some "Team Sync"),
             ("event_date", some "2025-10-13"),
             ("event_time", some "10:00 AM to 11:00 AM")],
    waiting_for := none, deletable_events := [],
    update_text := none, delete_text := none }

/-- Session holding a complete update record. -/
def sUpd : SessionSt :=
  { intent := some Intent.update,
    data := [("event_name", some "Standup"),
             ("new_date", some "2025-10-13"),
             ("new_time", some "2 PM to 3 PM")],
    waiting_for := none, deletable_events := [],
    update_text := some "update the Standup meeting", delete_text := none }

/-- World where the event is found and attendee `a@x.com` has a conflict
at the new time. -/
def C7c : Collab :=
  { C0 with
    getEventByName := fun n => if n = "Standup" then some evStandup else none
    checkConflict := fun a _ _ => a = "a@x.com" }

/-! ## Structural lemmas about the flows -/

theorem scheduleExec_spec (C : Collab) (s : SessionSt) :
    (scheduleExec C s).sess = emptySession ∧
    (scheduleExec C s).outcome = Outcome.terminal ∧
    (scheduleExec C s).usedIntent = some Intent.schedule := by
  unfold scheduleExec
  dsimp only []
  repeat' split
  all_goals exact ⟨rfl, rfl, rfl⟩

theorem scheduleAwait_inl_spec (C : Collab) (s : SessionSt) (input : String)
    (r : TurnResult) (h : scheduleAwait C s input = Sum.inl r) :
    r.sess = s ∧ r.usedIntent = some Intent.schedule ∧
      ∃ f, s.waiting_for = some f ∧ r.outcome = Outcome.prompted f := by
  unfold scheduleAwait at h
  split at h
  · exact (Sum.noConfusion h)
  next f hf =>
    repeat' split at h
    all_goals first
      | exact (Sum.noConfusion h)
      | (injection h with h2; subst h2; exact ⟨rfl, rfl, f, hf, rfl⟩)

theorem scheduleFlow_spec (C : Collab) (s : SessionSt) (input : String) :
    ((scheduleFlow C s input).outcome = Outcome.terminal →
      (scheduleFlow C s input).sess = emptySession) ∧
    (scheduleFlow C s input).usedIntent = some Intent.schedule := by
  unfold scheduleFlow
  cases hA : scheduleAwait C s input with
  | inl r =>
    obtain ⟨-, hu, f, -, ho⟩ := scheduleAwait_inl_spec C s input r hA
    simpa [ho] using hu
  | inr d =>
    cases hm : get_missing_field_prompt d with
    | some fp => simp [hm]
    | none =>
      obtain ⟨h1, h2, h3⟩ := scheduleExec_spec C { s with data := d, waiting_for := none }
      simp only [hm]
      exact ⟨fun _ => h1, h3⟩

theorem updateFlow_spec (C : Collab) (s : SessionSt) (input : String) :
    ((updateFlow C s input).outcome = Outcome.terminal →
      (updateFlow C s input).sess = emptySession) ∧
    (updateFlow C s input).usedIntent = some Intent.update := by
  unfold updateFlow
  dsimp only []
  split
  next r heq =>
    split at heq
    · split at heq
      · exact (Sum.noConfusion heq)
      · injection heq with h2; subst h2; simp
    · exact (Sum.noConfusion heq)
  next s1 heq =>
    repeat' split
    all_goals simp

theorem deleteFlow_spec (C : Collab) (s : SessionSt) (input : String) :
    ((deleteFlow C s input).outcome = Outcome.terminal →
      (deleteFlow C s input).sess = emptySession) ∧
    (deleteFlow C s input).usedIntent = some Intent.delete := by
  unfold deleteFlow
  dsimp only []
  split
  next r heq =>
    split at heq
    · split at heq
      · exact (Sum.noConfusion heq)
      · injection heq with h2; subst h2; simp
    · exact (Sum.noConfusion heq)
  next s1 heq =>
    split
    · repeat' split
      all_goals simp
    · split
      next r2 heq2 =>
        split at heq2
        · split at heq2
          · exact (Sum.noConfusion heq2)
          · injection heq2 with h2; subst h2; simp
        · exact (Sum.noConfusion heq2)
      next s2 heq2 =>
        repeat' split
        all_goals simp

/-- **C2.** For every turn that reaches a terminal outcome — successful
action, event not found, conflict detected, or executor failure — the
whole modelled conversation session (intent, field record, awaited field
and the transient delete state) equals the fully cleared session
`session.clear()` leaves behind; no terminal path keeps any part of it. -/
theorem C2_terminal_outcome_clears_whole_session (C : Collab) (s : SessionSt)
    (input : String) (h : (chat_turn C s input).outcome = Outcome.terminal) :
    (chat_turn C s input).sess = emptySession := by
  suffices key : ∀ r, chat_turn C s input = r →
      r.outcome = Outcome.terminal → r.sess = emptySession from key _ rfl h
  intro r hr ht
  unfold chat_turn at hr
  split at hr
  · subst hr; simp at ht
  · split at hr
    · subst hr; exact (scheduleFlow_spec C s input).1 ht
    · subst hr; exact (updateFlow_spec C s input).1 ht
    · subst hr; exact (deleteFlow_spec C s input).1 ht
    · dsimp only [] at hr
      repeat' split at hr
      all_goals subst hr
      · exact (scheduleFlow_spec C _ input).1 ht
      · exact (updateFlow_spec C _ input).1 ht
      · exact (deleteFlow_spec C _ input).1 ht
      · simp at ht

/-- Witness for C2: a complete schedule record reaching the executor ends
the turn terminally and the resulting session is exactly the cleared
one. -/
theorem C2_witness :
    (chat_turn C0 sSched "x").outcome = Outcome.terminal ∧
    (chat_turn C0 sSched "x").sess = emptySession :=
  ⟨by decide, C2_terminal_outcome_clears_whole_session C0 sSched "x" (by decide)⟩

/-- **C1.** For every conversation turn in which an awaited field is set
and the incoming message is rejected by the field validator for that field
(invalid email, past/unparseable date, or unparseable time), the turn's
reply is the field-specific re-prompt and the session is unchanged: no
value is written into the field record and the same field is awaited at
the end of the turn. -/
theorem C1_awaited_rejection_leaves_session_unchanged (C : Collab)
    (s : SessionSt) (i : Intent) (f input : String)
    (hi : s.intent = some i) (hw : s.waiting_for = some f)
    (hmiss : truthyField s.data f = false)
    (hrej : rejectsAwaited C i f input) :
    (chat_turn C s input).sess = s ∧
    (chat_turn C s input).reply = repromptMsg i f := by
  obtain ⟨si, sd, swf, sde, sut, sdt⟩ := s
  simp only at hi hw hmiss ⊢
  subst hi
  subst hw
  rcases hrej with ⟨hi2, hf, hval⟩ | ⟨hi2, hf, hdate⟩ | ⟨hi2, hf, htime⟩ |
    ⟨hi2, hf, hdate⟩ | ⟨hi2, hf, htime⟩ <;> subst hi2 <;> subst hf
  · have e0 : chat_turn C ⟨some Intent.schedule, sd, some "participant_email", sde, sut, sdt⟩ input =
        scheduleFlow C ⟨some Intent.schedule, sd, some "participant_email", sde, sut, sdt⟩ input := by
      unfold chat_turn; simp
    rw [e0]
    unfold scheduleFlow scheduleAwait
    dsimp only []
    simp [hval, get_missing_field_prompt, REQUIRED_FIELDS, scheduleQuestion, hmiss,
      repromptMsg, List.filter]
  · have e0 : chat_turn C ⟨some Intent.schedule, sd, some "event_date", sde, sut, sdt⟩ input =
        scheduleFlow C ⟨some Intent.schedule, sd, some "event_date", sde, sut, sdt⟩ input := by
      unfold chat_turn; simp
    rw [e0]
    unfold scheduleFlow scheduleAwait
    dsimp only []
    cases hd : C.dparse input with
    | some d => simp [hd, hdate d hd, repromptMsg]
    | none => simp [hd, repromptMsg]
  · have e0 : chat_turn C ⟨some Intent.schedule, sd, some "event_time", sde, sut, sdt⟩ input =
        scheduleFlow C ⟨some Intent.schedule, sd, some "event_time", sde, sut, sdt⟩ input := by
      unfold chat_turn; simp
    rw [e0]
    unfold scheduleFlow scheduleAwait
    dsimp only []
    simp [htime, repromptMsg]
  · have e0 : chat_turn C ⟨some Intent.update, sd, some "new_date", sde, sut, sdt⟩ input =
        updateFlow C ⟨some Intent.update, sd, some "new_date", sde, sut, sdt⟩ input := by
      unfold chat_turn; simp
    rw [e0]
    unfold updateFlow process_update_field_input
    dsimp only []
    cases hd : C.dparse (strTrim input) with
    | some d => simp [hd, hdate d hd, repromptMsg]
    | none => simp [hd, repromptMsg]
  · have e0 : chat_turn C ⟨some Intent.update, sd, some "new_time", sde, sut, sdt⟩ input =
        updateFlow C ⟨some Intent.update, sd, some "new_time", sde, sut, sdt⟩ input := by
      unfold chat_turn; simp
    rw [e0]
    unfold updateFlow process_update_field_input
    dsimp only []
    simp [htime, repromptMsg]

/-- Witness for C1: an unparseable date supplied for the awaited
`new_date` field of an update conversation leaves the session untouched
and re-prompts for the date. -/
theorem C1_witness :
    (chat_turn C0 sUpdAwait "garbage").sess = sUpdAwait ∧
    (chat_turn C0 sUpdAwait "garbage").reply = repromptMsg Intent.update "new_date" :=
  C1_awaited_rejection_leaves_session_unchanged C0 sUpdAwait Intent.update "new_date"
    "garbage" rfl rfl (by decide)
    (Or.inr (Or.inr (Or.inr (Or.inl ⟨rfl, rfl, fun d h => Option.noConfusion h⟩))))

/-- **C4 counterexample.** The claim says the first matching classifier
sets the intent; on the first message "check my emails" the explicit
email-processing classifier matches, yet the turn ends with the session
intent still unset (the email branch handles the message without
assigning `session['intent']`). -/
theorem C4_counterexample :
    is_email_processing_intent "check my emails" = true ∧
    (chat_turn C0 emptySession "check my emails").sess.intent = none ∧
    (chat_turn C0 emptySession "check my emails").outcome = Outcome.emailFlow :=
  ⟨by decide, by decide, by decide⟩

/-- **C4 (amended).** With no active intent, classification runs in fixed
priority order: explicit email-processing request (handled without
setting any intent), then Schedule, then Update, then Delete keywords;
the first matching keyword classifier determines the intent under which
the turn is processed; if none matches, the intent stays unset and the
message is handled as free-form conversation. -/
theorem C4_amended (C : Collab) (s : SessionSt) (input : String)
    (h : s.intent = none) :
    (is_email_processing_intent input = true →
      (chat_turn C s input).outcome = Outcome.emailFlow ∧
      (chat_turn C s input).sess = s ∧ (chat_turn C s input).usedIntent = none) ∧
    (is_email_processing_intent input = false → is_schedule_intent input = true →
      (chat_turn C s input).usedIntent = some Intent.schedule) ∧
    (is_email_processing_intent input = false → is_schedule_intent input = false →
      is_update_intent input = true →
      (chat_turn C s input).usedIntent = some Intent.update) ∧
    (is_email_processing_intent input = false → is_schedule_intent input = false →
      is_update_intent input = false → is_delete_intent input = true →
      (chat_turn C s input).usedIntent = some Intent.delete) ∧
    (is_email_processing_intent input = false → is_schedule_intent input = false →
      is_update_intent input = false → is_delete_intent input = false →
      (chat_turn C s input).outcome = Outcome.freeform ∧
      (chat_turn C s input).sess = s ∧ (chat_turn C s input).usedIntent = none) := by
  refine ⟨?_, ?_, ?_, ?_, ?_⟩
  · intro he
    unfold chat_turn
    simp [he, h]
  · intro he h1
    unfold chat_turn
    have hs := fun s' => (scheduleFlow_spec C s' input).2
    simp [he, h, h1, hs]
  · intro he h1 h2
    unfold chat_turn
    have hs := fun s' => (updateFlow_spec C s' input).2
    simp [he, h, h1, h2, hs]
  · intro he h1 h2 h3
    unfold chat_turn
    have hs := fun s' => (deleteFlow_spec C s' input).2
    simp [he, h, h1, h2, h3, hs]
  · intro he h1 h2 h3
    unfold chat_turn
    simp [he, h, h1, h2, h3]

/-- Witness for C4: a message matching no classifier is handled as
free-form conversation and the session keeps no intent. -/
theorem C4_witness :
    (chat_turn C0 emptySession "hello there").outcome = Outcome.freeform ∧
    (chat_turn C0 emptySession "hello there").sess = emptySession ∧
    (chat_turn C0 emptySession "hello there").usedIntent = none :=
  (C4_amended C0 emptySession "hello there" rfl).2.2.2.2
    (by decide) (by decide) (by decide) (by decide)


theorem dateLe_refl (d : PyDate) : dateLe d d = true := by
  simp [dateLe]

/-- **C5.** A value supplied for an awaited date field is accepted iff the
future-preferring parser produces a date at least the process-local
current date; an accepted date is stored normalized by
`strftime('%Y-%m-%d')` (in the update flow and in the schedule flow's
`event_date` branch alike); under the parser's behaviour on the relative
words, "yesterday" is always rejected and "today" is always accepted. -/
theorem C5_date_validation (C : Collab) (d0 : PyDict) (input : String) :
    ((process_update_field_input C "new_date" input d0).1 = true ↔
      ∃ dd, C.dparse (strTrim input) = some dd ∧ dateLe C.today dd = true) ∧
    (∀ dd, C.dparse (strTrim input) = some dd → dateLe C.today dd = true →
      process_update_field_input C "new_date" input d0 =
        (true, "✅ New date saved!", dictSet d0 "new_date" (some (strftime_Ymd dd)))) ∧
    (∀ s : SessionSt, s.waiting_for = some "event_date" →
      ∀ dd, C.dparse input = some dd → dateLe C.today dd = true →
        scheduleAwait C s input =
          Sum.inr (dictSet s.data "event_date" (some (strftime_Ymd dd)))) ∧
    (∀ y, C.dparse "yesterday" = some y → dateLe C.today y = false →
      (process_update_field_input C "new_date" "yesterday" d0).1 = false) ∧
    (C.dparse "today" = some C.today →
      (process_update_field_input C "new_date" "today" d0).1 = true) := by
  refine ⟨?_, ?_, ?_, ?_, ?_⟩
  · unfold process_update_field_input
    dsimp only []
    cases hd : C.dparse (strTrim input) with
    | some dd =>
      cases hle : dateLe C.today dd with
      | true => simp [hle]
      | false => simp [hle]
    | none => simp
  · intro dd hd hle
    unfold process_update_field_input
    dsimp only []
    rw [hd]
    simp [hle]
  · intro s hwf dd hd hle
    obtain ⟨si, sd, swf, sde, sut, sdt⟩ := s
    simp only at hwf
    subst hwf
    unfold scheduleAwait
    dsimp only []
    rw [hd]
    simp [hle]
  · intro y hy hlt
    unfold process_update_field_input
    dsimp only []
    rw [show strTrim "yesterday" = "yesterday" from by decide, hy]
    simp [hlt]
  · intro hT
    unfold process_update_field_input
    dsimp only []
    rw [show strTrim "today" = "today" from by decide, hT]
    simp [dateLe_refl]

/-- Witness for C5: with the fixture parser, "tomorrow" is accepted and
normalized, "yesterday" is rejected, "today" is accepted. -/
theorem C5_witness :
    process_update_field_input C0 "new_date" "tomorrow" [] =
      (true, "✅ New date saved!",
        dictSet [] "new_date" (some (strftime_Ymd ⟨2025, 10, 13⟩))) ∧
    (process_update_field_input C0 "new_date" "yesterday" []).1 = false ∧
    (process_update_field_input C0 "new_date" "today" []).1 = true :=
  ⟨(C5_date_validation C0 [] "tomorrow").2.1 ⟨2025, 10, 13⟩ (by decide) (by decide),
   (C5_date_validation C0 [] "yesterday").2.2.2.1 ⟨2025, 10, 11⟩ (by decide) (by decide),
   (C5_date_validation C0 [] "today").2.2.2.2 (by decide)⟩


/-- **C6.** For a complete Schedule record (services up, participant email
valid): if the participant has a conflict in the resolved start/end
window, the only side effect is the conflict-notification email to the
participant — in particular no create call is issued — and the reply is
the conflict message; otherwise, when the creation collaborator succeeds,
the event is created and the reply reports success with the obtained
meeting link. -/
theorem C6_schedule_conflict_policy (C : Collab) (s : SessionSt) (input : String)
    (hi : s.intent = some Intent.schedule) (hw : s.waiting_for = none)
    (hcomp : ∀ f ∈ REQUIRED_FIELDS, truthyField s.data f = true)
    (hsvc : C.servicesOk = true)
    (hmail : validate_email (pyIndexD s.data "participant_email") = true) :
    (C.checkConflict (pyIndexD s.data "participant_email")
        (C.parseDT (pyIndexD s.data "event_date") (pyIndexD s.data "event_time")).1
        (C.parseDT (pyIndexD s.data "event_date") (pyIndexD s.data "event_time")).2 = true →
      (chat_turn C s input).effects =
        [Effect.conflictEmail (pyIndexD s.data "participant_email")
          (pyIndexD s.data "event_name")] ∧
      (∀ sm pt, Effect.createCall sm pt ∉ (chat_turn C s input).effects) ∧
      (chat_turn C s input).reply =
        scheduleConflictMsg (pyIndexD s.data "participant_email")) ∧
    (C.checkConflict (pyIndexD s.data "participant_email")
        (C.parseDT (pyIndexD s.data "event_date") (pyIndexD s.data "event_time")).1
        (C.parseDT (pyIndexD s.data "event_date") (pyIndexD s.data "event_time")).2 = false →
      ∀ eid link,
        C.createEvent (pyIndexD s.data "event_name")
          (C.parseDT (pyIndexD s.data "event_date") (pyIndexD s.data "event_time")).1
          (C.parseDT (pyIndexD s.data "event_date") (pyIndexD s.data "event_time")).2
          (pyIndexD s.data "participant_email") = some (eid, link) →
        (chat_turn C s input).effects =
          [Effect.createCall (pyIndexD s.data "event_name")
            (pyIndexD s.data "participant_email"), Effect.trackMeeting eid] ∧
        (chat_turn C s input).reply =
          scheduleSuccessMsg (pyIndexD s.data "event_name")
            (pyIndexD s.data "participant_email") link C.meetingCount) := by
  obtain ⟨si, sd, swf, sde, sut, sdt⟩ := s
  simp only at hi hw hcomp hsvc hmail ⊢
  subst hi
  subst hw
  have e0 : chat_turn C ⟨some Intent.schedule, sd, none, sde, sut, sdt⟩ input =
      scheduleFlow C ⟨some Intent.schedule, sd, none, sde, sut, sdt⟩ input := by
    unfold chat_turn; simp
  have h1 := hcomp "participant_email" (by simp [REQUIRED_FIELDS])
  have h2 := hcomp "event_name" (by simp [REQUIRED_FIELDS])
  have h3 := hcomp "event_date" (by simp [REQUIRED_FIELDS])
  have h4 := hcomp "event_time" (by simp [REQUIRED_FIELDS])
  have eB : get_missing_field_prompt sd = none := by
    unfold get_missing_field_prompt REQUIRED_FIELDS
    simp [h1, h2, h3, h4, List.filter]
  have e1 : scheduleFlow C ⟨some Intent.schedule, sd, none, sde, sut, sdt⟩ input =
      scheduleExec C ⟨some Intent.schedule, sd, none, sde, sut, sdt⟩ := by
    unfold scheduleFlow scheduleAwait
    dsimp only []
    rw [eB]
  rw [e0, e1]
  unfold scheduleExec
  dsimp only []
  rw [hsvc, hmail]
  constructor
  · intro hc
    rw [hc]
    simp
  · intro hc eid link hcr
    rw [hc, hcr]
    simp

/-- Witness for C6: in the conflict-free fixture world the event is
created and the reply carries the meeting link. -/
theorem C6_witness :
    (chat_turn C0 sSched "x").effects =
      [Effect.createCall "Team Sync" "alice@example.com", Effect.trackMeeting "ev1"] ∧
    (chat_turn C0 sSched "x").reply =
      scheduleSuccessMsg "Team Sync" "alice@example.com" "https://meet.example/abc" 0 :=
  (C6_schedule_conflict_policy C0 sSched "x" rfl rfl (by decide) rfl (by decide)).2
    rfl "ev1" "https://meet.example/abc" (by decide)


/-- **C7.** For a complete Update record whose named event is found (user
email known): if any attendee other than the authenticated user has a
conflict at the new time, the update reports failure, the effects are
exactly the conflict notifications to the affected attendees and no
calendar update call is issued; the update call is issued iff no such
conflict exists. -/
theorem C7_update_conflict_abort (C : Collab) (name date time : String) (ev : GEvent)
    (hfind : C.getEventByName name = some ev) (huser : C.userEmail ≠ "") :
    ((otherAttendees C.userEmail ev.attendees).filter
        (fun a => C.checkConflict a (C.parseDT date time).1 (C.parseDT date time).2) ≠ [] →
      (update_event_with_sync C name date time).success = false ∧
      (update_event_with_sync C name date time).message =
        "Scheduling conflicts detected. Participants have been notified." ∧
      (update_event_with_sync C name date time).effects =
        ((otherAttendees C.userEmail ev.attendees).filter
          (fun a => C.checkConflict a (C.parseDT date time).1 (C.parseDT date time).2)).map
          (fun a => Effect.conflictEmail a (if ev.summary = "" then name else ev.summary)) ∧
      (∀ id, Effect.updateCall id ∉ (update_event_with_sync C name date time).effects)) ∧
    ((otherAttendees C.userEmail ev.attendees).filter
        (fun a => C.checkConflict a (C.parseDT date time).1 (C.parseDT date time).2) = [] →
      Effect.updateCall ev.id ∈ (update_event_with_sync C name date time).effects) ∧
    (∀ id, Effect.updateCall id ∈ (update_event_with_sync C name date time).effects →
      (otherAttendees C.userEmail ev.attendees).filter
        (fun a => C.checkConflict a (C.parseDT date time).1 (C.parseDT date time).2) = []) := by
  have e0 : update_event_with_sync C name date time =
      (let se := C.parseDT date time
       let summary := if ev.summary = "" then name else ev.summary
       let checked := otherAttendees C.userEmail ev.attendees
       let conflicted := checked.filter (fun a => C.checkConflict a se.1 se.2)
       let conflictMails := conflicted.map (fun a => Effect.conflictEmail a summary)
       if !conflicted.isEmpty then
         ⟨false, "Scheduling conflicts detected. Participants have been notified.",
           conflictMails⟩
       else
         let notices := checked.map (fun a => Effect.rescheduleEmail a summary)
         let notificationSent := checked.any (fun a => C.sendOk a)
         let effs := notices ++ [Effect.updateCall ev.id]
         let res : Bool × String :=
           match C.updateCall ev.id with
           | Except.ok _ =>
             (true, "Event '" ++ summary ++ "' updated successfully to "
               ++ date ++ " at " ++ time
               ++ (if notificationSent then " and participants have been notified" else ""))
           | Except.error e =>
             if pyIn "404" e then
               (false, "Event '" ++ name ++ "' no longer exists")
             else if pyIn "403" e then
               (false, "Permission denied. You may not have rights to update this event")
             else if pyIn "401" e then
               (false, "Authentication error. Please re-authenticate with Google Calendar")
             else (false, "Failed to update event: " ++ e)
         ⟨res.1, res.2, effs⟩ : ExecResult) := by
    unfold update_event_with_sync
    rw [hfind]
    dsimp only []
    cases hat : ev.attendees with
    | nil => simp [otherAttendees]
    | cons a l => simp [huser]
  by_cases hc : (otherAttendees C.userEmail ev.attendees).filter
      (fun a => C.checkConflict a (C.parseDT date time).1 (C.parseDT date time).2) = []
  · have hemp : ((otherAttendees C.userEmail ev.attendees).filter
        (fun a => C.checkConflict a (C.parseDT date time).1 (C.parseDT date time).2)).isEmpty = true := by
      rw [hc]; rfl
    refine ⟨fun hne => absurd hc hne, fun _ => ?_, fun id _ => hc⟩
    rw [e0]
    dsimp only []
    rw [hemp]
    simp
  · have hne : ((otherAttendees C.userEmail ev.attendees).filter
        (fun a => C.checkConflict a (C.parseDT date time).1 (C.parseDT date time).2)).isEmpty = false := by
      cases hfe : (otherAttendees C.userEmail ev.attendees).filter
          (fun a => C.checkConflict a (C.parseDT date time).1 (C.parseDT date time).2) with
      | nil => exact absurd hfe hc
      | cons a l => rfl
    have eT : update_event_with_sync C name date time =
        ⟨false, "Scheduling conflicts detected. Participants have been notified.",
          ((otherAttendees C.userEmail ev.attendees).filter
            (fun a => C.checkConflict a (C.parseDT date time).1 (C.parseDT date time).2)).map
            (fun a => Effect.conflictEmail a (if ev.summary = "" then name else ev.summary))⟩ := by
      rw [e0]
      dsimp only []
      rw [hne]
      simp
    rw [eT]
    refine ⟨fun _ => ⟨rfl, rfl, rfl, fun id => ?_⟩, fun h => absurd h hc, fun id hmem => ?_⟩
    · simp [List.mem_map]
    · exfalso
      simp [List.mem_map] at hmem

/-- Witness for C7: attendee `a@x.com` of `Standup` has a conflict, so the
update aborts, notifying only that attendee and issuing no update call. -/
theorem C7_witness :
    (update_event_with_sync C7c "Standup" "tomorrow" "2 PM").success = false ∧
    (update_event_with_sync C7c "Standup" "tomorrow" "2 PM").message =
      "Scheduling conflicts detected. Participants have been notified." ∧
    (update_event_with_sync C7c "Standup" "tomorrow" "2 PM").effects =
      [Effect.conflictEmail "a@x.com" "Standup"] ∧
    (∀ id, Effect.updateCall id ∉
      (update_event_with_sync C7c "Standup" "tomorrow" "2 PM").effects) :=
  (C7_update_conflict_abort C7c "Standup" "tomorrow" "2 PM" evStandup
    (by decide) (by decide)).1 (by decide)


/-- **C3 counterexample.** When the resolved event's delete call fails
with a 404-class error (resource already gone), the chat delete flow
(`delete_event_with_sync`) reports failure, and the user-visible reply is
the failure message — refuting the claim that the operation reports
success. -/
theorem C3_counterexample :
    pyIn "404" "404 Not Found" = true ∧
    (delete_event_with_sync C3c "Standup").success = false ∧
    (chat_turn C3c sDel "x").reply =
      "❌ Event 'Standup' was already deleted or not found" :=
  ⟨by decide, by decide, by decide⟩

/-- **C3 (amended).** The lower-level helper `calenderinternal.delete_event`
treats a 404-class failure of the delete call as success (idempotent
deletion), but the chat delete flow `app.delete_event_with_sync` reports
failure with the message "Event ... was already deleted or not found". -/
theorem C3_amended (C : Collab) (name : String) (ev : GEvent) (e : String)
    (hfind : C.getEventByName name = some ev)
    (hdel : C.deleteCall ev.id = Except.error e)
    (h404 : pyIn "404" e = true) :
    (delete_event C name).1 = true ∧
    (delete_event_with_sync C name).success = false ∧
    (delete_event_with_sync C name).message =
      "Event '" ++ name ++ "' was already deleted or not found" := by
  refine ⟨?_, ?_, ?_⟩
  · unfold delete_event
    rw [hfind]
    dsimp only []
    rw [hdel]
    simp [h404]
  · unfold delete_event_with_sync
    rw [hfind]
    dsimp only []
    rw [hdel]
    simp [h404]
  · unfold delete_event_with_sync
    rw [hfind]
    dsimp only []
    rw [hdel]
    simp [h404]

/-- Witness for C3 (amended): the fixture world where the delete call
raises `404 Not Found`. -/
theorem C3_witness :
    (delete_event C3c "Standup").1 = true ∧
    (delete_event_with_sync C3c "Standup").success = false ∧
    (delete_event_with_sync C3c "Standup").message =
      "Event 'Standup' was already deleted or not found" :=
  C3_amended C3c "Standup" evStandup "404 Not Found" (by decide) rfl (by decide)

/-- **C8.** For an Update/Delete whose event name resolves to no event but
with similar events on the calendar, the suggestion dicts built by
`suggest_similar_events` carry the key `name` while the executors read key
`summary`; the lookup fails (Python `KeyError('summary')`), so the reply
is the generic unexpected-error message instead of the not-found reply
listing up to 3 ranked suggestions that the claim (and the spec) require.
No calendar mutation occurs (the effects are empty). -/
theorem C8_suggestion_keyerror :
    suggest_similar_events C8c.listRecentEvents "Team Sync" ≠ [] ∧
    (∀ s ∈ suggest_similar_events C8c.listRecentEvents "Team Sync",
      dictGet? s "summary" = none) ∧
    (delete_event_with_sync C8c "Team Sync").message =
      "Unexpected error during deletion: 'summary'" ∧
    (delete_event_with_sync C8c "Team Sync").success = false ∧
    (delete_event_with_sync C8c "Team Sync").effects = [] ∧
    (update_event_with_sync C8c "Team Sync" "tomorrow" "2 PM").message =
      "Unexpected error during update: 'summary'" ∧
    (update_event_with_sync C8c "Team Sync" "tomorrow" "2 PM").effects = [] :=
  ⟨by decide, by decide, by decide, by decide, by decide, by decide, by decide⟩

/-- **C9.** Due to Python conditional-expression precedence, the
`is_user_organizer` check compares only the organizer email when the
user's email is known: with user `u@x.com`, organizer `boss@x.com` and
creator `u@x.com` the source evaluates to `False` while the intended
"organizer OR creator" semantics is `True`; the organizer comparison
itself is case-insensitive. -/
theorem C9_is_user_organizer_drops_creator :
    is_user_organizer "u@x.com" "boss@x.com" "u@x.com" = false ∧
    is_user_organizer_spec "u@x.com" "boss@x.com" "u@x.com" = true ∧
    is_user_organizer "u@x.com" "U@X.com" "anyone@y.com" = true :=
  ⟨by decide, by decide, by decide⟩

/-- **C10 counterexample.** With only a start time given and a start
clock of 11:30 PM (1410 minutes), `parse_datetime` formats start+1h with
`%I:%M %p` (dropping the date) and re-parses it on the same date, so the
end is 12:30 AM of the same day — 23 hours before the start — not one
hour after the start as the claim states. -/
theorem C10_counterexample :
    (parse_datetime 0 (some 5) (some 1410) []).2.minutes ≠
      (parse_datetime 0 (some 5) (some 1410) []).1.minutes + 60 ∧
    (parse_datetime 0 (some 5) (some 1410) []).1.minutes = 5 * 1440 + 1410 ∧
    (parse_datetime 0 (some 5) (some 1410) []).2.minutes = 5 * 1440 + 30 :=
  ⟨by decide, by decide, by decide⟩

/-- **C10 (amended).** `parse_datetime` is total (the embedding is a total
function mirroring the source's catch-all handler) and both results carry
the `Asia/Kolkata` timezone; an unparseable date silently falls back to
tomorrow; with only a start time given, the end defaults to the start's
wall clock plus one hour re-anchored to the same date — one hour after
the start when the start's clock is before 11:00 PM, and an end 23 hours
earlier when the clock is 11:00 PM or later; when parsing fails entirely
the result is tomorrow 10:00 AM to 11:00 AM. -/
theorem C10_parse_datetime_amended (today : Int) (dateRes : Option Int)
    (p1 : Option Nat) (rest : List (Option Nat)) :
    ((parse_datetime today dateRes p1 rest).1.tz = "Asia/Kolkata" ∧
     (parse_datetime today dateRes p1 rest).2.tz = "Asia/Kolkata") ∧
    (dateRes = none →
      parse_datetime today dateRes p1 rest =
        parse_datetime today (some (today + 1)) p1 rest) ∧
    (∀ c, p1 = some c → rest = [] → c + 60 < 1440 →
      (parse_datetime today dateRes p1 rest).2.minutes =
        (parse_datetime today dateRes p1 rest).1.minutes + 60) ∧
    (∀ c, p1 = some c → rest = [] → 1440 ≤ c + 60 → c < 1440 →
      (parse_datetime today dateRes p1 rest).2.minutes =
        (parse_datetime today dateRes p1 rest).1.minutes + 60 - 1440) ∧
    (parse_datetime today none none [] =
      (⟨(today + 1) * 1440 + 600, "Asia/Kolkata"⟩,
       ⟨(today + 1) * 1440 + 660, "Asia/Kolkata"⟩)) := by
  refine ⟨?_, ?_, ?_, ?_, ?_⟩
  · unfold parse_datetime
    cases rest with
    | nil => cases p1 <;> exact ⟨rfl, rfl⟩
    | cons p2 r => cases p1 <;> cases p2 <;> exact ⟨rfl, rfl⟩
  · intro h
    subst h
    rfl
  · intro c h1 h2 hlt
    subst h1
    subst h2
    unfold parse_datetime
    dsimp only []
    omega
  · intro c h1 h2 hge hlt
    subst h1
    subst h2
    unfold parse_datetime
    dsimp only []
    omega
  · unfold parse_datetime
    dsimp only []
    simp [Option.getD, Prod.ext_iff, ISTTime.mk.injEq]
    omega

/-- Witness for C10 (amended): an unparseable date with a 9:00 AM start
falls back to tomorrow and gets a one-hour meeting. -/
theorem C10_witness :
    parse_datetime 0 none (some 540) [] = parse_datetime 0 (some 1) (some 540) [] ∧
    (parse_datetime 0 none (some 540) []).2.minutes =
      (parse_datetime 0 none (some 540) []).1.minutes + 60 :=
  ⟨(C10_parse_datetime_amended 0 none (some 540) []).2.1 rfl,
   (C10_parse_datetime_amended 0 none (some 540) []).2.2.1 540 rfl rfl (by decide)⟩

end EmailCal
